import Mathlib

/-!
# Build-information record of `Sources/Common/Utils/AppInfo.h`

The header declares one record type and one global of that type:

    struct AppBuildInformation {
      char const* const _Nonnull name;
      char const* const _Nonnull identifier;
      char const* const _Nonnull version;
      unsigned short build;
    };
    extern struct AppBuildInformation AppInfo;

The development below embeds the two member types, the record, and the
accesses C allows on an object of the record type (member reads, and
assignment to a member that is not `const`-qualified). The global `AppInfo`
is defined outside the header, so its value is not fixed here: every
statement is proved for all records, hence for `AppInfo` too.

`_Nonnull` is a clang nullability annotation. It states that null is not a
meaningful value of the member, and the compiler may warn about a null
initialiser, but it does not change the set of values of the type: a
zero-initialised object, `{0}`, or a `NULL` initialiser gives a record whose
pointers are null. The three text members are therefore embedded as plain
`char const*` values, null included.
-/

namespace AppInfo

/-! ## Member types -/

/-- Value of C type `char const*`: the null pointer, or the address of a
NUL-terminated run of characters, given by the characters before the
terminator. The pointee is `const`, so no access through the pointer can
change the characters. -/
inductive CString where
  | null
  | chars (s : String)
  deriving DecidableEq, Repr

/-- Text a `char const*` points at, if it points at any. -/
def CString.deref : CString → Option String
  | CString.null => none
  | CString.chars s => some s

/-- Pointer value of a string literal: the address of its characters, which
is never null. -/
def CString.literal (s : String) : CString :=
  CString.chars s

/-- Number of value bits of `unsigned short`. The C standard leaves the width
to the platform; it is 16 on every ABI the project builds for (clang on
Apple arm64 and x86-64). -/
def USHRT_WIDTH : Nat := 16

/-- Largest `unsigned short`, 65535. -/
def USHRT_MAX : Nat := 2 ^ USHRT_WIDTH - 1

/-- Value of C type `unsigned short`. -/
structure UShort where
  val : Nat
  le_max : val ≤ USHRT_MAX

/-- C conversion of an integer to `unsigned short`: the value is reduced
modulo `2 ^ USHRT_WIDTH` (C11 6.3.1.3). -/
def UShort.ofInt (n : Int) : UShort :=
  ⟨(n % (2 ^ USHRT_WIDTH : Int)).toNat, by
    have h1 : 0 ≤ n % (2 ^ USHRT_WIDTH : Int) := Int.emod_nonneg n (by simp [USHRT_WIDTH])
    have h2 : n % (2 ^ USHRT_WIDTH : Int) < (2 ^ USHRT_WIDTH : Int) :=
      Int.emod_lt_of_pos n (by simp [USHRT_WIDTH])
    simp only [USHRT_MAX, USHRT_WIDTH] at *
    omega⟩

/-! ## The record -/

/-- The record `struct AppBuildInformation`, members in declaration order. -/
structure AppBuildInformation where
  /-- The framework's given name. -/
  name : CString
  /-- The framework's bundle identifier. -/
  identifier : CString
  /-- The framework's version (major, minor, bug). -/
  version : CString
  /-- The framework's build number. -/
  build : UShort

/-- Aggregate initialisation `{ name, identifier, version, build }`: each
initialiser is converted to the type of its member, which for `build` is the
conversion to `unsigned short`. -/
def AppBuildInformation.init (name identifier version : CString) (build : Int) :
    AppBuildInformation :=
  ⟨name, identifier, version, UShort.ofInt build⟩

/-! ## Accesses -/

/-- The four members of the record. -/
inductive Field where
  | name
  | identifier
  | version
  | build
  deriving DecidableEq, Repr

/-- Whether the member itself is declared `const` (the `const` after the `*`
for the three pointers; none on `build`). -/
def Field.isConst : Field → Bool
  | Field.name => true
  | Field.identifier => true
  | Field.version => true
  | Field.build => false

/-- Value of an expression that is read from, or assigned to, a member. -/
inductive Value where
  | pointer (p : CString)
  | integer (n : Int)
  deriving DecidableEq, Repr

/-- Value of the member access `r.f`. -/
def AppBuildInformation.read (r : AppBuildInformation) : Field → Value
  | Field.name => Value.pointer r.name
  | Field.identifier => Value.pointer r.identifier
  | Field.version => Value.pointer r.version
  | Field.build => Value.integer r.build.val

/-- An access to an object of the record type: a read of a member, or an
assignment of a value to a member. Assignment to the whole object is not an
access of this type: a structure with a `const`-qualified member is not a
modifiable lvalue (C11 6.3.2.1). -/
inductive Operation where
  | load (f : Field)
  | store (f : Field) (v : Value)
  deriving DecidableEq, Repr

/-- Effect of one access: the record afterwards and the value of the
expression, or `none` when the declaration does not permit the access.
A read leaves the record as it is. An assignment is rejected when the member
is `const`-qualified, and when a pointer is assigned to the integer member
(C11 6.5.16.1); an integer assigned to `build` is converted to
`unsigned short` and stored. -/
def exec (r : AppBuildInformation) : Operation → Option (AppBuildInformation × Value)
  | Operation.load f => some (r, r.read f)
  | Operation.store f v =>
    if f.isConst then none
    else
      match v with
      | Value.pointer _ => none
      | Value.integer n =>
        some ({ r with build := UShort.ofInt n }, Value.integer (UShort.ofInt n).val)

/-- Whether the declaration permits the access on the record. -/
def permitted (r : AppBuildInformation) (op : Operation) : Bool :=
  (exec r op).isSome

/-- The record after a permitted access; the record itself after a rejected
one, which does not run. -/
def after (r : AppBuildInformation) (op : Operation) : AppBuildInformation :=
  match exec r op with
  | some (r1, _) => r1
  | none => r

/-- The record after a sequence of accesses made one after the other. -/
def run (r : AppBuildInformation) (ops : List Operation) : AppBuildInformation :=
  ops.foldl after r

/-! ## Helper lemmas -/

theorem UShort.ofInt_val (n : Int) :
    ((UShort.ofInt n).val : Int) = n % (2 ^ USHRT_WIDTH : Int) := by
  have h1 : 0 ≤ n % (2 ^ USHRT_WIDTH : Int) := Int.emod_nonneg n (by simp [USHRT_WIDTH])
  simp [UShort.ofInt, Int.toNat_of_nonneg h1]

theorem UShort.ofInt_val_of_le (b : Nat) (h : b ≤ USHRT_MAX) :
    (UShort.ofInt (b : Int)).val = b := by
  have hv := UShort.ofInt_val (b : Int)
  simp only [USHRT_MAX, USHRT_WIDTH] at *
  omega

theorem CString.deref_isSome_of_ne_null (p : CString) (h : p ≠ CString.null) :
    p.deref.isSome = true := by
  cases p with
  | null => exact absurd rfl h
  | chars s => rfl

theorem after_text (r : AppBuildInformation) (op : Operation) :
    (after r op).name = r.name ∧ (after r op).identifier = r.identifier
      ∧ (after r op).version = r.version := by
  cases op with
  | load f => exact ⟨rfl, rfl, rfl⟩
  | store f v => cases f <;> cases v <;> exact ⟨rfl, rfl, rfl⟩

theorem run_text (ops : List Operation) (r : AppBuildInformation) :
    (run r ops).name = r.name ∧ (run r ops).identifier = r.identifier
      ∧ (run r ops).version = r.version := by
  induction ops generalizing r with
  | nil => exact ⟨rfl, rfl, rfl⟩
  | cons op rest ih =>
    obtain ⟨h1, h2, h3⟩ := ih (after r op)
    obtain ⟨g1, g2, g3⟩ := after_text r op
    exact ⟨h1.trans g1, h2.trans g2, h3.trans g3⟩

theorem exec_load (r : AppBuildInformation) (f : Field) :
    exec r (Operation.load f) = some (r, r.read f) := rfl

theorem exec_store_build (r : AppBuildInformation) (n : Int) :
    exec r (Operation.store Field.build (Value.integer n))
      = some (⟨r.name, r.identifier, r.version, UShort.ofInt n⟩,
              Value.integer (UShort.ofInt n).val) := rfl

theorem exec_store_isSome (r : AppBuildInformation) (f : Field) (v : Value)
    (h : (exec r (Operation.store f v)).isSome = true) :
    f = Field.build ∧ ∃ n, v = Value.integer n := by
  cases f <;> cases v <;> simp [exec, Field.isConst] at h ⊢

/-! ## Sanity checks of the embedding on concrete inputs -/

example : (UShort.ofInt 42).val = 42 := by decide
example : (UShort.ofInt (-1)).val = 65535 := by decide
example : (UShort.ofInt 65536).val = 0 := by decide
example : (CString.literal "Drawing").deref = some "Drawing" := rfl
example : CString.null.deref = none := rfl
example (r : AppBuildInformation) :
    run r [Operation.store Field.build (Value.integer 7), Operation.load Field.name,
      Operation.store Field.name (Value.pointer CString.null)]
      = ⟨r.name, r.identifier, r.version, UShort.ofInt 7⟩ := rfl
example (r : AppBuildInformation) :
    exec r (Operation.store Field.name (Value.pointer (CString.chars "x"))) = none := rfl
example (r : AppBuildInformation) :
    exec r (Operation.store Field.build (Value.pointer CString.null)) = none := rfl

/-! ## Construction and reading -/

/-- C1: for every name, identifier, version and every build below 65536, the
record initialised from them reads back exactly those four values, member by
member. -/
theorem init_read_roundtrip (name identifier version : String) (build : Nat)
    (h : build < 65536) :
    (AppBuildInformation.init (CString.literal name) (CString.literal identifier)
        (CString.literal version) build).read Field.name
      = Value.pointer (CString.chars name)
    ∧ (AppBuildInformation.init (CString.literal name) (CString.literal identifier)
        (CString.literal version) build).read Field.identifier
      = Value.pointer (CString.chars identifier)
    ∧ (AppBuildInformation.init (CString.literal name) (CString.literal identifier)
        (CString.literal version) build).read Field.version
      = Value.pointer (CString.chars version)
    ∧ (AppBuildInformation.init (CString.literal name) (CString.literal identifier)
        (CString.literal version) build).read Field.build
      = Value.integer build := by
  refine ⟨rfl, rfl, rfl, ?_⟩
  have hb : (UShort.ofInt (build : Int)).val = build :=
    UShort.ofInt_val_of_le build (by simp only [USHRT_MAX, USHRT_WIDTH]; omega)
  simp [AppBuildInformation.read, AppBuildInformation.init, hb]

/-- C1 at the spec's example: "Drawing", "com.example.drawing", "1.0.0", 42
are read back unchanged. -/
theorem init_read_roundtrip_drawing :
    42 < 65536
    ∧ (AppBuildInformation.init (CString.literal "Drawing")
        (CString.literal "com.example.drawing")
        (CString.literal "1.0.0") ((42 : Nat) : Int)).read Field.name
      = Value.pointer (CString.chars "Drawing")
    ∧ (AppBuildInformation.init (CString.literal "Drawing")
        (CString.literal "com.example.drawing")
        (CString.literal "1.0.0") ((42 : Nat) : Int)).read Field.identifier
      = Value.pointer (CString.chars "com.example.drawing")
    ∧ (AppBuildInformation.init (CString.literal "Drawing")
        (CString.literal "com.example.drawing")
        (CString.literal "1.0.0") ((42 : Nat) : Int)).read Field.version
      = Value.pointer (CString.chars "1.0.0")
    ∧ (AppBuildInformation.init (CString.literal "Drawing")
        (CString.literal "com.example.drawing")
        (CString.literal "1.0.0") ((42 : Nat) : Int)).read Field.build
      = Value.integer ((42 : Nat) : Int) :=
  ⟨by decide, init_read_roundtrip "Drawing" "com.example.drawing" "1.0.0" 42 (by decide)⟩

/-! ## Non-null and non-empty text -/

/-- C6 fails as stated: the zero-initialised record is a value of the record
type, and reading its name, identifier and version yields the null pointer,
which points at no text. -/
theorem zero_record_text_absent :
    (AppBuildInformation.init CString.null CString.null CString.null 0).read Field.name
      = Value.pointer CString.null
    ∧ (AppBuildInformation.init CString.null CString.null CString.null 0).read Field.identifier
      = Value.pointer CString.null
    ∧ (AppBuildInformation.init CString.null CString.null CString.null 0).read Field.version
      = Value.pointer CString.null
    ∧ (AppBuildInformation.init CString.null CString.null CString.null 0).name.deref = none
    ∧ (AppBuildInformation.init CString.null CString.null CString.null 0).identifier.deref = none
    ∧ (AppBuildInformation.init CString.null CString.null CString.null 0).version.deref = none :=
  ⟨rfl, rfl, rfl, rfl, rfl, rfl⟩

/-- C6 as amended: in a record initialised with a name, an identifier and a
version pointer none of which is null, the three members are not null and
point at text, at initialisation and after every sequence of accesses. -/
theorem text_fields_present (name identifier version : CString) (build : Int)
    (ops : List Operation)
    (hn : name ≠ CString.null) (hi : identifier ≠ CString.null)
    (hv : version ≠ CString.null) :
    ((run (AppBuildInformation.init name identifier version build) ops).read Field.name
        ≠ Value.pointer CString.null
      ∧ (run (AppBuildInformation.init name identifier version build) ops).read Field.identifier
        ≠ Value.pointer CString.null
      ∧ (run (AppBuildInformation.init name identifier version build) ops).read Field.version
        ≠ Value.pointer CString.null)
    ∧ ((run (AppBuildInformation.init name identifier version build) ops).name.deref.isSome
        = true
      ∧ (run (AppBuildInformation.init name identifier version build) ops).identifier.deref.isSome
        = true
      ∧ (run (AppBuildInformation.init name identifier version build) ops).version.deref.isSome
        = true) := by
  obtain ⟨h1, h2, h3⟩ := run_text ops (AppBuildInformation.init name identifier version build)
  have e1 : (run (AppBuildInformation.init name identifier version build) ops).name = name := h1
  have e2 : (run (AppBuildInformation.init name identifier version build) ops).identifier
      = identifier := h2
  have e3 : (run (AppBuildInformation.init name identifier version build) ops).version
      = version := h3
  refine ⟨⟨?_, ?_, ?_⟩, ?_, ?_, ?_⟩
  · intro h; exact hn (e1.symm.trans (Value.pointer.inj h))
  · intro h; exact hi (e2.symm.trans (Value.pointer.inj h))
  · intro h; exact hv (e3.symm.trans (Value.pointer.inj h))
  · rw [e1]; exact CString.deref_isSome_of_ne_null name hn
  · rw [e2]; exact CString.deref_isSome_of_ne_null identifier hi
  · rw [e3]; exact CString.deref_isSome_of_ne_null version hv

/-- C6 as amended, at the record of the spec's example after an assignment
to build and a read of name. -/
theorem text_fields_present_drawing :
    (CString.literal "Drawing" ≠ CString.null
      ∧ CString.literal "com.example.drawing" ≠ CString.null
      ∧ CString.literal "1.0.0" ≠ CString.null)
    ∧ (run (AppBuildInformation.init (CString.literal "Drawing")
          (CString.literal "com.example.drawing") (CString.literal "1.0.0") 42)
        [Operation.store Field.build (Value.integer 43), Operation.load Field.name]).read
          Field.name ≠ Value.pointer CString.null
    ∧ (run (AppBuildInformation.init (CString.literal "Drawing")
          (CString.literal "com.example.drawing") (CString.literal "1.0.0") 42)
        [Operation.store Field.build (Value.integer 43), Operation.load Field.name]).name.deref.isSome
          = true :=
  ⟨⟨by decide, by decide, by decide⟩,
   (text_fields_present (CString.literal "Drawing") (CString.literal "com.example.drawing")
      (CString.literal "1.0.0") 42
      [Operation.store Field.build (Value.integer 43), Operation.load Field.name]
      (by decide) (by decide) (by decide)).1.1,
   (text_fields_present (CString.literal "Drawing") (CString.literal "com.example.drawing")
      (CString.literal "1.0.0") 42
      [Operation.store Field.build (Value.integer 43), Operation.load Field.name]
      (by decide) (by decide) (by decide)).2.1⟩

/-- C2 fails as stated: the record initialised from three empty string
literals and build 0 is a record of the type, and its name, identifier and
version do not point at texts of length at least 1. -/
theorem empty_text_record :
    ¬ ∃ n i v : String,
      (AppBuildInformation.init (CString.literal "") (CString.literal "")
          (CString.literal "") 0).name.deref = some n
      ∧ (AppBuildInformation.init (CString.literal "") (CString.literal "")
          (CString.literal "") 0).identifier.deref = some i
      ∧ (AppBuildInformation.init (CString.literal "") (CString.literal "")
          (CString.literal "") 0).version.deref = some v
      ∧ 1 ≤ n.length ∧ 1 ≤ i.length ∧ 1 ≤ v.length := by
  rintro ⟨n, i, v, hn, -, -, h1, -, -⟩
  have hn2 : some "" = some n := hn
  have e : "" = n := Option.some.inj hn2
  subst e
  revert h1
  decide

/-- C2 as amended: in a record initialised from a name, an identifier and a
version that are each non-empty, the three members point at texts of length
at least 1, at initialisation and after every sequence of accesses. -/
theorem init_text_nonempty (name identifier version : String) (build : Int)
    (ops : List Operation)
    (hn : 1 ≤ name.length) (hi : 1 ≤ identifier.length) (hv : 1 ≤ version.length) :
    ∃ n i v : String,
      (run (AppBuildInformation.init (CString.literal name) (CString.literal identifier)
          (CString.literal version) build) ops).name.deref = some n
      ∧ (run (AppBuildInformation.init (CString.literal name) (CString.literal identifier)
          (CString.literal version) build) ops).identifier.deref = some i
      ∧ (run (AppBuildInformation.init (CString.literal name) (CString.literal identifier)
          (CString.literal version) build) ops).version.deref = some v
      ∧ 1 ≤ n.length ∧ 1 ≤ i.length ∧ 1 ≤ v.length := by
  obtain ⟨h1, h2, h3⟩ := run_text ops
    (AppBuildInformation.init (CString.literal name) (CString.literal identifier)
      (CString.literal version) build)
  refine ⟨name, identifier, version, ?_, ?_, ?_, hn, hi, hv⟩
  · rw [h1]; rfl
  · rw [h2]; rfl
  · rw [h3]; rfl

/-- C2 as amended, at the spec's example values after an assignment to build
and a read of version. -/
theorem init_text_nonempty_drawing :
    (1 ≤ "Drawing".length ∧ 1 ≤ "com.example.drawing".length ∧ 1 ≤ "1.0.0".length)
    ∧ ∃ n i v : String,
      (run (AppBuildInformation.init (CString.literal "Drawing")
          (CString.literal "com.example.drawing") (CString.literal "1.0.0") 42)
        [Operation.store Field.build (Value.integer 43),
          Operation.load Field.version]).name.deref = some n
      ∧ (run (AppBuildInformation.init (CString.literal "Drawing")
          (CString.literal "com.example.drawing") (CString.literal "1.0.0") 42)
        [Operation.store Field.build (Value.integer 43),
          Operation.load Field.version]).identifier.deref = some i
      ∧ (run (AppBuildInformation.init (CString.literal "Drawing")
          (CString.literal "com.example.drawing") (CString.literal "1.0.0") 42)
        [Operation.store Field.build (Value.integer 43),
          Operation.load Field.version]).version.deref = some v
      ∧ 1 ≤ n.length ∧ 1 ≤ i.length ∧ 1 ≤ v.length :=
  ⟨⟨by decide, by decide, by decide⟩,
   init_text_nonempty "Drawing" "com.example.drawing" "1.0.0" 42
    [Operation.store Field.build (Value.integer 43), Operation.load Field.version]
    (by decide) (by decide) (by decide)⟩

/-! ## Reads -/

/-- C4: reading any of the four members is permitted, leaves the record
unchanged, and a second read of the same member straight after the first
yields the same value. -/
theorem read_stable (r : AppBuildInformation) (f : Field) :
    exec r (Operation.load f) = some (r, r.read f)
    ∧ after r (Operation.load f) = r
    ∧ exec (after r (Operation.load f)) (Operation.load f) = exec r (Operation.load f) :=
  ⟨rfl, rfl, rfl⟩

/-! ## The build member -/

/-- C5: the build member of every record lies between 0 and 65535, and an
integer n stored into it, by initialisation or by assignment, is read back
as n mod 2^16. -/
theorem build_unsigned_16 (r : AppBuildInformation) :
    (0 ≤ r.build.val ∧ r.build.val ≤ 65535)
    ∧ (∀ n : Int, permitted r (Operation.store Field.build (Value.integer n)) = true
        ∧ (after r (Operation.store Field.build (Value.integer n))).read Field.build
            = Value.integer (n % 2 ^ 16))
    ∧ (∀ n : Int, (AppBuildInformation.init r.name r.identifier r.version n).read Field.build
            = Value.integer (n % 2 ^ 16)) := by
  refine ⟨⟨Nat.zero_le _, r.build.le_max⟩, fun n => ⟨rfl, ?_⟩, fun n => ?_⟩
  · show Value.integer ((UShort.ofInt n).val : Int) = Value.integer (n % 2 ^ 16)
    rw [UShort.ofInt_val]; rfl
  · show Value.integer ((UShort.ofInt n).val : Int) = Value.integer (n % 2 ^ 16)
    rw [UShort.ofInt_val]; rfl

/-- C8: an assignment to a member is permitted only when the member is build
(name, identifier and version are const), and assigning a 16-bit value b to
build is permitted, leaves name, identifier and version unchanged, and makes
the next read of build return b. -/
theorem only_build_writable (r : AppBuildInformation) (b : Nat) (hb : b < 65536) :
    (Field.name.isConst = true ∧ Field.identifier.isConst = true
      ∧ Field.version.isConst = true ∧ Field.build.isConst = false)
    ∧ (∀ (f : Field) (v : Value), permitted r (Operation.store f v) = true → f = Field.build)
    ∧ permitted r (Operation.store Field.build (Value.integer b)) = true
    ∧ (after r (Operation.store Field.build (Value.integer b))).name = r.name
    ∧ (after r (Operation.store Field.build (Value.integer b))).identifier = r.identifier
    ∧ (after r (Operation.store Field.build (Value.integer b))).version = r.version
    ∧ exec (after r (Operation.store Field.build (Value.integer b))) (Operation.load Field.build)
        = some (after r (Operation.store Field.build (Value.integer b)), Value.integer b) := by
  refine ⟨⟨rfl, rfl, rfl, rfl⟩, fun f v h => (exec_store_isSome r f v h).1,
    rfl, rfl, rfl, rfl, ?_⟩
  have hval : (UShort.ofInt (b : Int)).val = b :=
    UShort.ofInt_val_of_le b (by simp only [USHRT_MAX, USHRT_WIDTH]; omega)
  rw [exec_load]
  show some (after r (Operation.store Field.build (Value.integer b)),
      Value.integer ((UShort.ofInt (b : Int)).val : Int)) = _
  rw [hval]

/-- C8 at the record of the spec's example, assigning 43 to build. -/
theorem only_build_writable_drawing :
    43 < 65536
    ∧ (after (AppBuildInformation.init (CString.literal "Drawing")
          (CString.literal "com.example.drawing") (CString.literal "1.0.0") 42)
        (Operation.store Field.build (Value.integer ((43 : Nat) : Int)))).name
      = CString.literal "Drawing"
    ∧ exec (after (AppBuildInformation.init (CString.literal "Drawing")
          (CString.literal "com.example.drawing") (CString.literal "1.0.0") 42)
        (Operation.store Field.build (Value.integer ((43 : Nat) : Int))))
        (Operation.load Field.build)
      = some (after (AppBuildInformation.init (CString.literal "Drawing")
          (CString.literal "com.example.drawing") (CString.literal "1.0.0") 42)
        (Operation.store Field.build (Value.integer ((43 : Nat) : Int))),
        Value.integer ((43 : Nat) : Int)) :=
  ⟨by decide,
   (only_build_writable (AppBuildInformation.init (CString.literal "Drawing")
      (CString.literal "com.example.drawing") (CString.literal "1.0.0") 42)
      43 (by decide)).2.2.2.1,
   (only_build_writable (AppBuildInformation.init (CString.literal "Drawing")
      (CString.literal "com.example.drawing") (CString.literal "1.0.0") 42)
      43 (by decide)).2.2.2.2.2.2⟩

/-! ## Mutability -/

/-- C3 fails as stated: on the record of the spec's example, with build 42,
the assignment of 43 to build is permitted and build is 43 afterwards, so
the four members do not all keep their values. -/
theorem build_assignment_changes_record :
    permitted (AppBuildInformation.init (CString.literal "Drawing")
        (CString.literal "com.example.drawing") (CString.literal "1.0.0") 42)
      (Operation.store Field.build (Value.integer 43)) = true
    ∧ (AppBuildInformation.init (CString.literal "Drawing")
        (CString.literal "com.example.drawing") (CString.literal "1.0.0")
        42).build.val = 42
    ∧ (after (AppBuildInformation.init (CString.literal "Drawing")
        (CString.literal "com.example.drawing") (CString.literal "1.0.0") 42)
      (Operation.store Field.build (Value.integer 43))).build.val = 43
    ∧ ¬ ((after (AppBuildInformation.init (CString.literal "Drawing")
            (CString.literal "com.example.drawing") (CString.literal "1.0.0") 42)
          (Operation.store Field.build (Value.integer 43))).read Field.name
          = (AppBuildInformation.init (CString.literal "Drawing")
            (CString.literal "com.example.drawing") (CString.literal "1.0.0")
            42).read Field.name
        ∧ (after (AppBuildInformation.init (CString.literal "Drawing")
            (CString.literal "com.example.drawing") (CString.literal "1.0.0") 42)
          (Operation.store Field.build (Value.integer 43))).read Field.identifier
          = (AppBuildInformation.init (CString.literal "Drawing")
            (CString.literal "com.example.drawing") (CString.literal "1.0.0")
            42).read Field.identifier
        ∧ (after (AppBuildInformation.init (CString.literal "Drawing")
            (CString.literal "com.example.drawing") (CString.literal "1.0.0") 42)
          (Operation.store Field.build (Value.integer 43))).read Field.version
          = (AppBuildInformation.init (CString.literal "Drawing")
            (CString.literal "com.example.drawing") (CString.literal "1.0.0")
            42).read Field.version
        ∧ (after (AppBuildInformation.init (CString.literal "Drawing")
            (CString.literal "com.example.drawing") (CString.literal "1.0.0") 42)
          (Operation.store Field.build (Value.integer 43))).read Field.build
          = (AppBuildInformation.init (CString.literal "Drawing")
            (CString.literal "com.example.drawing") (CString.literal "1.0.0")
            42).read Field.build) := by
  refine ⟨rfl, by decide, by decide, ?_⟩
  decide

/-- C3 as amended: every access the declaration permits leaves name,
identifier and version with the values they had before, and leaves build
with its value too unless the access is an assignment to build. -/
theorem permitted_access_keeps_text (r : AppBuildInformation) (op : Operation)
    (h : permitted r op = true) :
    (after r op).name = r.name
    ∧ (after r op).identifier = r.identifier
    ∧ (after r op).version = r.version
    ∧ ((∀ v : Value, op ≠ Operation.store Field.build v) → (after r op).build = r.build) := by
  cases op with
  | load f => exact ⟨rfl, rfl, rfl, fun _ => rfl⟩
  | store f v =>
    obtain ⟨hf, n, hv⟩ := exec_store_isSome r f v h
    subst hf; subst hv
    exact ⟨rfl, rfl, rfl, fun hne => absurd rfl (hne (Value.integer n))⟩

/-- C3 as amended, at the record of the spec's example and the assignment of
43 to build: the three text members keep their values. -/
theorem permitted_access_keeps_text_drawing :
    permitted (AppBuildInformation.init (CString.literal "Drawing")
        (CString.literal "com.example.drawing") (CString.literal "1.0.0") 42)
      (Operation.store Field.build (Value.integer 43)) = true
    ∧ (after (AppBuildInformation.init (CString.literal "Drawing")
          (CString.literal "com.example.drawing") (CString.literal "1.0.0") 42)
        (Operation.store Field.build (Value.integer 43))).name
      = CString.literal "Drawing"
    ∧ (after (AppBuildInformation.init (CString.literal "Drawing")
          (CString.literal "com.example.drawing") (CString.literal "1.0.0") 42)
        (Operation.store Field.build (Value.integer 43))).identifier
      = CString.literal "com.example.drawing"
    ∧ (after (AppBuildInformation.init (CString.literal "Drawing")
          (CString.literal "com.example.drawing") (CString.literal "1.0.0") 42)
        (Operation.store Field.build (Value.integer 43))).version
      = CString.literal "1.0.0" :=
  ⟨rfl,
   (permitted_access_keeps_text _ (Operation.store Field.build (Value.integer 43)) rfl).1,
   (permitted_access_keeps_text _ (Operation.store Field.build (Value.integer 43)) rfl).2.1,
   (permitted_access_keeps_text _ (Operation.store Field.build (Value.integer 43)) rfl).2.2.1⟩

end AppInfo
